import Mathlib

/-
  Shallow embedding of the tailsitter VTOL transition strategy
  (src/modules/transition_logic/tailsitter_pitch_program.py) together with the
  telemetry snapshot it consumes (src/modules/telemetry_handler.py).

  Python floats are modelled as rationals (ℚ); every arithmetic step of the
  source is mirrored exactly.  Telemetry slots that may be absent are Options.
  The configuration dictionary is a record of optional fields; each use site
  applies the same default that the corresponding `config.get(key, default)`
  call applies in the source.
-/

namespace MavsdkVtol

/-- Attitude Euler-angle telemetry record (slot `euler_angle` of the snapshot
returned by `TelemetryHandler.get_telemetry`). -/
structure EulerAngle where
  roll_deg : ℚ
  pitch_deg : ℚ
  yaw_deg : ℚ
deriving DecidableEq, Repr

/-- NED position record inside the `position_velocity_ned` slot; `down_m` is
positive downward, so altitude is `-down_m`. -/
structure NedPosition where
  north_m : ℚ
  east_m : ℚ
  down_m : ℚ
deriving DecidableEq, Repr

/-- NED velocity record inside the `position_velocity_ned` slot. -/
structure NedVelocity where
  north_m_s : ℚ
  east_m_s : ℚ
  down_m_s : ℚ
deriving DecidableEq, Repr

/-- The `position_velocity_ned` telemetry slot. -/
structure PositionVelocityNed where
  position : NedPosition
  velocity : NedVelocity
deriving DecidableEq, Repr

/-- The `fixedwing_metrics` telemetry slot. -/
structure FixedwingMetrics where
  airspeed_m_s : ℚ
  throttle_percentage : ℚ
  climb_rate_m_s : ℚ
deriving DecidableEq, Repr

/-- Telemetry snapshot as consumed by the strategy: the dictionary returned by
`TelemetryHandler.get_telemetry`, where any slot may be absent (`dict.get`
returning `None`).  The battery slot is never read by the transition logic and
is omitted. -/
structure Telemetry where
  position_velocity_ned : Option PositionVelocityNed := none
  euler_angle : Option EulerAngle := none
  fixedwing_metrics : Option FixedwingMetrics := none
deriving DecidableEq, Repr

/-- Configuration dictionary: every key read by
`tailsitter_pitch_program.py`, each as an optional field.  A `none` field
means the key is missing from the YAML file, in which case the use site
substitutes the default of its `config.get(key, default)` call. -/
structure Config where
  safety_lock : Option Bool := none
  initial_takeoff_height : Option ℚ := none
  initial_climb_height : Option ℚ := none
  initial_climb_rate : Option ℚ := none
  cycle_interval : Option ℚ := none
  transition_base_altitude : Option ℚ := none
  secondary_climb_rate : Option ℚ := none
  transition_yaw_angle : Option ℚ := none
  throttle_ramp_time : Option ℚ := none
  forward_transition_time : Option ℚ := none
  over_tilt_enabled : Option Bool := none
  max_allowed_tilt : Option ℚ := none
  max_throttle : Option ℚ := none
  max_tilt_pitch : Option ℚ := none
  transition_timeout : Option ℚ := none
  transition_air_speed : Option ℚ := none
  max_roll_failsafe : Option ℚ := none
  max_altitude_failsafe : Option ℚ := none
  max_pitch_failsafe : Option ℚ := none
  altitude_loss_limit : Option ℚ := none
  altitude_failsafe_threshold : Option ℚ := none
  climb_rate_failsafe_threshold : Option ℚ := none
  acceleration_factor : Option ℚ := none
  acceleration_duration : Option ℚ := none
  failsafe_multicopter_transition : Option Bool := none
  start_waypoint_index : Option ℕ := none

/-- Altitude parsed from a snapshot:
`-position_velocity_ned.position.down_m if position_velocity_ned else 0.0`. -/
def telAltitude (tel : Telemetry) : ℚ :=
  match tel.position_velocity_ned with
  | some pv => -pv.position.down_m
  | none => 0

/-- Pitch parsed from a snapshot: `euler_angle.pitch_deg if euler_angle else 0.0`. -/
def telPitch (tel : Telemetry) : ℚ :=
  match tel.euler_angle with
  | some e => e.pitch_deg
  | none => 0

/-- Roll parsed from a snapshot: `euler_angle.roll_deg if euler_angle else 0.0`. -/
def telRoll (tel : Telemetry) : ℚ :=
  match tel.euler_angle with
  | some e => e.roll_deg
  | none => 0

/-- Airspeed parsed from a snapshot:
`fixedwing_metrics.airspeed_m_s if fixedwing_metrics else 0.0`. -/
def telAirspeed (tel : Telemetry) : ℚ :=
  match tel.fixedwing_metrics with
  | some m => m.airspeed_m_s
  | none => 0

/-- Climb rate parsed from a snapshot:
`fixedwing_metrics.climb_rate_m_s if fixedwing_metrics else 0.0`. -/
def telClimbRate (tel : Telemetry) : ℚ :=
  match tel.fixedwing_metrics with
  | some m => m.climb_rate_m_s
  | none => 0

/-- Ramp-entry throttle read:
`fixedwing_metrics.throttle_percentage if fixedwing_metrics else 0.7`
(lines 277-280 and again in `success_transition`). -/
def telThrottle (tel : Telemetry) : ℚ :=
  match tel.fixedwing_metrics with
  | some m => m.throttle_percentage
  | none => 0.7

/-- Outcome of one body of the `monitor_and_switch` while-loop: which failsafe
tripped, success, timeout, or fall through to the next cycle. -/
inductive MonitorDecision
  | failRoll
  | failAltitudeHigh
  | failPitch
  | failAltitudeLoss
  | failAltitudeLow
  | failClimbRate
  | succeedAirspeed
  | failTimeout
  | next
deriving DecidableEq, Repr

/-- Peak-altitude update of `monitor_and_switch` (lines 453-455):
`if max_altitude is None or altitude > max_altitude: max_altitude = altitude`. -/
def updatePeak (maxAltitude : Option ℚ) (altitude : ℚ) : ℚ :=
  match maxAltitude with
  | none => altitude
  | some m => if altitude > m then altitude else m

/-- Altitude-loss derivation of `monitor_and_switch` (line 457):
`altitude_loss = (max_altitude - altitude) if max_altitude else 0.0`.
Python truthiness: when the (already updated, hence non-None) peak equals
`0.0` the loss is `0.0` regardless of the current altitude. -/
def altitudeLossOf (maxAltitude altitude : ℚ) : ℚ :=
  if maxAltitude = 0 then 0 else maxAltitude - altitude

/-- One cycle of `monitor_and_switch` (lines 438-527): parse the snapshot with
defaults, update the peak altitude, then run the if-chain in source order.
Returns the decision and the updated peak. -/
def monitorCycle (cfg : Config) (elapsedTime : ℚ) (tel : Telemetry)
    (maxAltitude0 : Option ℚ) : MonitorDecision × ℚ :=
  let altitude := telAltitude tel
  let pitch := telPitch tel
  let roll := telRoll tel
  let airspeed := telAirspeed tel
  let climbRate := telClimbRate tel
  let maxAltitude := updatePeak maxAltitude0 altitude
  let altitudeLoss := altitudeLossOf maxAltitude altitude
  let d :=
    if |roll| > cfg.max_roll_failsafe.getD 30 then MonitorDecision.failRoll
    else if altitude > cfg.max_altitude_failsafe.getD 200 then MonitorDecision.failAltitudeHigh
    else if |pitch| > cfg.max_pitch_failsafe.getD 130 then MonitorDecision.failPitch
    else if altitudeLoss > cfg.altitude_loss_limit.getD 20 then MonitorDecision.failAltitudeLoss
    else if altitude < cfg.altitude_failsafe_threshold.getD 10 then MonitorDecision.failAltitudeLow
    else if climbRate < cfg.climb_rate_failsafe_threshold.getD 0.3 then MonitorDecision.failClimbRate
    else if airspeed ≥ cfg.transition_air_speed.getD 20 then MonitorDecision.succeedAirspeed
    else if elapsedTime > cfg.transition_timeout.getD 120 then MonitorDecision.failTimeout
    else MonitorDecision.next
  (d, maxAltitude)

/-- Specification-side rendering of the §4.2 monitoring checks: the ordered
list of (predicate, decision) pairs, written as data so that a first-hit
scan over the list can be compared with the code's if-chain. -/
def monitorChecks (cfg : Config) (elapsedTime : ℚ) (tel : Telemetry)
    (maxAltitude0 : Option ℚ) : List (Bool × MonitorDecision) :=
  let altitude := telAltitude tel
  let maxAltitude := updatePeak maxAltitude0 altitude
  let altitudeLoss := altitudeLossOf maxAltitude altitude
  [ (decide (|telRoll tel| > cfg.max_roll_failsafe.getD 30), MonitorDecision.failRoll),
    (decide (altitude > cfg.max_altitude_failsafe.getD 200), MonitorDecision.failAltitudeHigh),
    (decide (|telPitch tel| > cfg.max_pitch_failsafe.getD 130), MonitorDecision.failPitch),
    (decide (altitudeLoss > cfg.altitude_loss_limit.getD 20), MonitorDecision.failAltitudeLoss),
    (decide (altitude < cfg.altitude_failsafe_threshold.getD 10), MonitorDecision.failAltitudeLow),
    (decide (telClimbRate tel < cfg.climb_rate_failsafe_threshold.getD 0.3), MonitorDecision.failClimbRate),
    (decide (telAirspeed tel ≥ cfg.transition_air_speed.getD 20), MonitorDecision.succeedAirspeed),
    (decide (elapsedTime > cfg.transition_timeout.getD 120), MonitorDecision.failTimeout) ]

/-- First predicate of an ordered check list that holds decides the cycle;
if none holds the cycle falls through to the next iteration. -/
def firstTripped (checks : List (Bool × MonitorDecision)) : MonitorDecision :=
  match checks.find? (fun c => c.1) with
  | some c => c.2
  | none => MonitorDecision.next

/-- Iterated monitoring: run `monitorCycle` over a list of
(elapsed-time, snapshot) pairs, threading the peak altitude, and return the
index and decision of the first terminal cycle (`none` when every supplied
cycle fell through). -/
def monitorRun (cfg : Config) :
    Option ℚ → List (ℚ × Telemetry) → Option (ℕ × MonitorDecision)
  | _, [] => none
  | maxAltitude0, c :: rest =>
    let r := monitorCycle cfg c.1 c.2 maxAltitude0
    if r.1 = MonitorDecision.next then
      (monitorRun cfg (some r.2) rest).map (fun kd => (kd.1 + 1, kd.2))
    else some (0, r.1)

/-- Peak altitude after a sequence of monitoring cycles, threaded exactly as
`monitorRun` threads it (every executed cycle updates the peak before any
check fires). -/
def peakAfterCycles (cfg : Config) : Option ℚ → List (ℚ × Telemetry) → Option ℚ
  | m0, [] => m0
  | m0, c :: rest => peakAfterCycles cfg (some (monitorCycle cfg c.1 c.2 m0).2) rest

/-- Specification-side maximum of a nonempty collection of observed values. -/
def observedMax (first : ℚ) (rest : List ℚ) : ℚ :=
  rest.foldl max first

/-- Autopilot command surface: one constructor per operation the strategy can
invoke on the drone object. -/
inductive Cmd
  | arm
  | setTakeoffAltitude (altitude : ℚ)
  | takeoff
  | setVelocityBody (forward right down yawspeed : ℚ)
  | setVelocityNed (north east down yaw : ℚ)
  | setAttitude (roll pitch yaw thrust : ℚ)
  | offboardStart
  | offboardStop
  | transitionToFixedwing
  | transitionToMulticopter
  | hold
  | returnToLaunch
  | downloadMission
  | setCurrentMissionItem (idx : ℕ)
  | startMission
deriving DecidableEq, Repr

/-- Observable events of a run: a command issuance (recording whether
`command_lock` was held at the moment of issue) or a sleep. -/
inductive Event
  | issue (cmd : Cmd) (lockHeld : Bool)
  | sleepFor (seconds : ℚ)
deriving DecidableEq, Repr

/-- Whether an event is an attitude-setpoint issuance. -/
def Event.isAttitude : Event → Bool
  | Event.issue (Cmd.setAttitude _ _ _ _) _ => true
  | _ => false

/-- Whether an event is a command issued while `command_lock` was not held. -/
def Event.isUnlockedIssue : Event → Bool
  | Event.issue _ lockHeld => !lockHeld
  | _ => false

/-- Whether an event is an `offboard.start` invocation. -/
def Event.isOffboardStart : Event → Bool
  | Event.issue Cmd.offboardStart _ => true
  | _ => false

/-- Yaw angle carried by a command, for the setpoint kinds that carry one. -/
def Cmd.yawOf : Cmd → Option ℚ
  | Cmd.setVelocityNed _ _ _ yaw => some yaw
  | Cmd.setAttitude _ _ yaw _ => some yaw
  | _ => none

/-- Session state owned by the strategy object.  `launch_yaw_angle` is
initialized to `0.0` in `__init__` (line 46) and is never assigned anywhere
else in the class. -/
structure SessionState where
  launch_yaw_angle : ℚ := 0
deriving DecidableEq, Repr

/-- Abort path `abort_transition` (lines 792-824): best-effort multicopter
revert when configured, stop offboard, return to launch, each under the
command lock; returns the failure status. -/
def abort_transition_trace (cfg : Config) : List Event :=
  (if cfg.failsafe_multicopter_transition.getD true then
    [Event.issue Cmd.transitionToMulticopter true]
  else []) ++
  [Event.issue Cmd.offboardStop true, Event.issue Cmd.returnToLaunch true]

/-- Phase 1 `arm_and_takeoff` (lines 123-141): under the command lock issue
arm, set-takeoff-altitude (default 3.0) and takeoff, then sleep 5 s.  The
function reads no telemetry and does not modify the session state (in
particular `launch_yaw_angle` is not captured). -/
def arm_and_takeoff (cfg : Config) (st : SessionState) : SessionState × List Event :=
  (st,
   [Event.issue Cmd.arm true,
    Event.issue (Cmd.setTakeoffAltitude (cfg.initial_takeoff_height.getD 3)) true,
    Event.issue Cmd.takeoff true,
    Event.sleepFor 5])

/-- Outcome of one attempt of the `start_offboard` retry loop: both commands
accepted, `offboard.start` rejected with `OffboardError`, or an unexpected
exception from the command block. -/
inductive AttemptOutcome
  | ok
  | offboardErr
  | otherErr
deriving DecidableEq, Repr

/-- Result of `start_offboard`: offboard mode activated, or the terminal
`RuntimeError("Offboard mode activation failed.")` raised after the abort
path ran. -/
inductive StartOffboardResult
  | activated
  | raisedError
deriving DecidableEq, Repr

/-- The zero body-velocity setpoint published before each offboard-start
attempt (line 150-152). -/
def zeroBodySetpoint : Event := Event.issue (Cmd.setVelocityBody 0 0 0 0) true

/-- Retry loop of `start_offboard` (lines 142-165), unrolled from a given
attempt number with a given number of attempts remaining.  Each attempt
publishes the zero body-velocity setpoint and invokes offboard-start under
the lock; an `OffboardError` sleeps 2 s and retries, an unexpected error
breaks out of the loop; when the loop ends without activation the abort path
runs and `RuntimeError` is raised. -/
def start_offboard_from (cfg : Config) (outcomes : ℕ → AttemptOutcome) :
    ℕ → ℕ → List Event × StartOffboardResult
  | _, 0 => (abort_transition_trace cfg, StartOffboardResult.raisedError)
  | attempt, n + 1 =>
    match outcomes attempt with
    | AttemptOutcome.ok =>
        ([zeroBodySetpoint, Event.issue Cmd.offboardStart true], StartOffboardResult.activated)
    | AttemptOutcome.offboardErr =>
        let rest := start_offboard_from cfg outcomes (attempt + 1) n
        ([zeroBodySetpoint, Event.issue Cmd.offboardStart true, Event.sleepFor 2] ++ rest.1,
         rest.2)
    | AttemptOutcome.otherErr =>
        ([zeroBodySetpoint, Event.issue Cmd.offboardStart true] ++ abort_transition_trace cfg,
         StartOffboardResult.raisedError)

/-- Phase 2 `start_offboard` with its default of 3 retries. -/
def start_offboard (cfg : Config) (outcomes : ℕ → AttemptOutcome) (retries : ℕ) :
    List Event × StartOffboardResult :=
  start_offboard_from cfg outcomes 1 retries

/-- Phase 3 `initial_climb_phase` (lines 167-206): per cycle, read a snapshot,
exit once altitude reaches `initial_climb_height`, else publish the upward
body-velocity setpoint under the lock and sleep one cycle.  The argument list
supplies the per-iteration snapshots; the trace covers the iterations those
snapshots drive. -/
def initial_climb_phase (cfg : Config) : List Telemetry → List Event
  | [] => []
  | tel :: rest =>
    if telAltitude tel ≥ cfg.initial_climb_height.getD 5 then []
    else
      Event.issue (Cmd.setVelocityBody 0 0 (-(cfg.initial_climb_rate.getD 2)) 0) true ::
      Event.sleepFor (cfg.cycle_interval.getD 0.1) ::
      initial_climb_phase cfg rest

/-- Phase 4 `secondary_climb_phase` (lines 208-248): per cycle, exit once
altitude reaches `transition_base_altitude`, else publish the NED-velocity
setpoint whose yaw component is `config.get("transition_yaw_angle", 0.0)`
taken verbatim (lines 214 and 232-235), and sleep one cycle. -/
def secondary_climb_phase (cfg : Config) : List Telemetry → List Event
  | [] => []
  | tel :: rest =>
    if telAltitude tel ≥ cfg.transition_base_altitude.getD 10 then []
    else
      Event.issue
        (Cmd.setVelocityNed 0 0 (-(cfg.secondary_climb_rate.getD 1))
          (cfg.transition_yaw_angle.getD 0)) true ::
      Event.sleepFor (cfg.cycle_interval.getD 0.1) ::
      secondary_climb_phase cfg rest

/-- Derived ramp parameters of `ramp_throttle_and_tilt` (lines 261-283):
step counts from the ramp durations and the cycle interval (`int()` of the
positive ratio, i.e. its floor), the signed tilt caps, and the per-cycle
increments (zero when the corresponding step count is zero). -/
structure RampParams where
  throttleSteps : ℕ
  tiltSteps : ℕ
  maxThrottle : ℚ
  maxTilt : ℚ
  maxAllowedTilt : ℚ
  throttleStep : ℚ
  tiltStep : ℚ
deriving DecidableEq, Repr

/-- Computation of the ramp parameters from the configuration and the
ramp-entry throttle, mirroring lines 262-283 of the source. -/
def mkRampParams (cfg : Config) (currentThrottle : ℚ) : RampParams :=
  let throttleRampTime := cfg.throttle_ramp_time.getD 5
  let tiltRampTime := cfg.forward_transition_time.getD 15
  let cycleInterval := cfg.cycle_interval.getD 0.1
  let maxAllowedTilt := -1 * cfg.max_allowed_tilt.getD 110
  let maxThrottle := cfg.max_throttle.getD 0.8
  let maxTilt := -1 * cfg.max_tilt_pitch.getD 80
  let throttleSteps := (throttleRampTime / cycleInterval).floor.toNat
  let tiltSteps := (tiltRampTime / cycleInterval).floor.toNat
  { throttleSteps := throttleSteps
    tiltSteps := tiltSteps
    maxThrottle := maxThrottle
    maxTilt := maxTilt
    maxAllowedTilt := maxAllowedTilt
    throttleStep :=
      if throttleSteps > 0 then (maxThrottle - currentThrottle) / throttleSteps else 0
    tiltStep := if tiltSteps > 0 then maxTilt / tiltSteps else 0 }

/-- One iteration of the nominal ramp loop body (lines 313-321): while steps
remain, add the throttle increment and clamp at `max_throttle` with `min`,
and add the (negative) tilt increment and clamp at the (negative) `max_tilt`
with `max`. -/
def rampUpdate (p : RampParams) (step : ℕ) (st : ℚ × ℚ) : ℚ × ℚ :=
  let throttle := if step < p.throttleSteps then min (st.1 + p.throttleStep) p.maxThrottle else st.1
  let tilt := if step < p.tiltSteps then max (st.2 + p.tiltStep) p.maxTilt else st.2
  (throttle, tilt)

/-- Ramp state (throttle, tilt) after `k` loop iterations, starting from the
ramp-entry throttle and an initial tilt of 0 (lines 285-286).  The attitude
setpoint published in iteration `k` carries the state after `k+1` updates. -/
def rampStateAfter (p : RampParams) (throttle0 : ℚ) : ℕ → ℚ × ℚ
  | 0 => (throttle0, 0)
  | k + 1 => rampUpdate p k (rampStateAfter p throttle0 k)

/-- Attitude setpoint published at iteration `k` of the nominal ramp loop
(lines 324-332): roll 0, pitch = commanded tilt, yaw =
`config.get("transition_yaw_angle", 0.0)` verbatim, thrust = commanded
throttle. -/
def rampAttitudeAt (cfg : Config) (p : RampParams) (throttle0 : ℚ) (k : ℕ) : Cmd :=
  Cmd.setAttitude 0 (rampStateAfter p throttle0 (k + 1)).2
    (cfg.transition_yaw_angle.getD 0) (rampStateAfter p throttle0 (k + 1)).1

/-- Commanded tilt after `k` iterations of the over-tilt loop (lines
361-392), starting from the tilt reached by the nominal phase: add the same
(negative) increment and clamp at the (negative) `max_allowed_tilt` with
`max`; throttle stays at its final nominal value. -/
def overTiltAfter (p : RampParams) (tiltStart : ℚ) : ℕ → ℚ
  | 0 => tiltStart
  | k + 1 => max (overTiltAfter p tiltStart k + p.tiltStep) p.maxAllowedTilt

/-- Published events of the nominal ramp loop run to completion (no abort or
transition signal received): one attitude setpoint under the lock plus one
cycle sleep per iteration, `max(throttle_steps, tilt_steps)` iterations. -/
def ramp_throttle_and_tilt_trace (cfg : Config) (entryTel : Telemetry) : List Event :=
  let p := mkRampParams cfg (telThrottle entryTel)
  (List.range (max p.throttleSteps p.tiltSteps)).foldr
    (fun k acc =>
      Event.issue (rampAttitudeAt cfg p (telThrottle entryTel) k) true ::
      Event.sleepFor (cfg.cycle_interval.getD 0.1) :: acc) []

/-- Post-transition action selector, the four accepted values of
`config.get("post_transition_action", "return_to_launch")`; a missing or
unknown value dispatches to return-to-launch (the else-branch of
`handle_post_transition_action`). -/
inductive PostTransitionAction
  | continueCurrentHeading
  | holdAction
  | returnToLaunch
  | startMissionFromWaypoint
deriving DecidableEq, Repr

/-- Python exception kinds that the post-transition code can raise. -/
inductive PyError
  | attributeError
  | nameError
  | runtimeError
deriving DecidableEq, Repr

/-- Post-transition action `_continue_current_heading` (lines 665-710):
re-enter offboard (propagating its `RuntimeError` on exhaustion), read
`euler_angle.yaw_deg` without a missing-slot guard (an absent slot raises
`AttributeError`), then: with `position_velocity_ned` absent, issue the
forward body-velocity setpoint OUTSIDE the command lock (lines 686-688) and
then hit the unbound `vel_n` of the fall-through locked NED setpoint
(`NameError`); with the slot present, issue the locked NED setpoint with the
cached velocity and current yaw.  Returns the issued events and the raised
exception, if any. -/
def continue_current_heading (cfg : Config) (outcomes : ℕ → AttemptOutcome)
    (tel : Telemetry) : List Event × Option PyError :=
  let so := start_offboard cfg outcomes 3
  match so.2 with
  | StartOffboardResult.raisedError => (so.1, some PyError.runtimeError)
  | StartOffboardResult.activated =>
    match tel.euler_angle with
    | none => (so.1, some PyError.attributeError)
    | some euler =>
      match tel.position_velocity_ned with
      | none =>
          (so.1 ++
            [Event.issue (Cmd.setVelocityBody (cfg.transition_air_speed.getD 20) 0 0 0) false],
           some PyError.nameError)
      | some pv =>
          (so.1 ++
            [Event.issue
              (Cmd.setVelocityNed pv.velocity.north_m_s pv.velocity.east_m_s 0 euler.yaw_deg)
              true],
           none)

/-- Post-transition action `_hold_mode` (lines 712-719). -/
def hold_mode_trace : List Event := [Event.issue Cmd.hold true]

/-- Post-transition action `_return_to_launch` (lines 721-728). -/
def return_to_launch_trace : List Event := [Event.issue Cmd.returnToLaunch true]

/-- Post-transition action `_start_mission_from_waypoint` (lines 730-789),
happy path: download the mission, set the current item, start the mission,
each under the lock. -/
def start_mission_from_waypoint_trace (waypointIndex : ℕ) : List Event :=
  [Event.issue Cmd.downloadMission true,
   Event.issue (Cmd.setCurrentMissionItem waypointIndex) true,
   Event.issue Cmd.startMission true]

/-- Dispatcher `handle_post_transition_action` (lines 628-663): run the
configured action; if the action raises, fall back to return-to-launch. -/
def handle_post_transition_action (cfg : Config) (action : PostTransitionAction)
    (outcomes : ℕ → AttemptOutcome) (tel : Telemetry) : List Event :=
  match action with
  | PostTransitionAction.continueCurrentHeading =>
    let r := continue_current_heading cfg outcomes tel
    r.1 ++ (match r.2 with
            | some _ => return_to_launch_trace
            | none => [])
  | PostTransitionAction.holdAction => hold_mode_trace
  | PostTransitionAction.returnToLaunch => return_to_launch_trace
  | PostTransitionAction.startMissionFromWaypoint =>
    start_mission_from_waypoint_trace (cfg.start_waypoint_index.getD 2)

/-- Success path `success_transition` (lines 537-626), happy path for the
autopilot commands: compute the horizontal velocity (the square root
`(vx**2 + vy**2) ** 0.5` is irrational in general and is supplied by the
`sqrtOf` oracle; with the position slot absent the code falls back to
`transition_air_speed`), publish the forward acceleration setpoint, sleep
`acceleration_duration`, stop offboard, command the fixed-wing transition,
then dispatch the post-transition action. -/
def success_transition_trace (cfg : Config) (tel : Telemetry) (sqrtOf : ℚ → ℚ)
    (action : PostTransitionAction) (outcomes : ℕ → AttemptOutcome) : List Event :=
  let horizontalVelocity :=
    match tel.position_velocity_ned with
    | some pv => sqrtOf (pv.velocity.north_m_s ^ 2 + pv.velocity.east_m_s ^ 2)
    | none => cfg.transition_air_speed.getD 20
  let target := horizontalVelocity * cfg.acceleration_factor.getD 1
  [Event.issue (Cmd.setVelocityBody target 0 0 0) true,
   Event.sleepFor (cfg.acceleration_duration.getD 0.5),
   Event.issue Cmd.offboardStop true,
   Event.issue Cmd.transitionToFixedwing true] ++
  handle_post_transition_action cfg action outcomes tel

/-- Which of the two Phase 5 tasks reaches its terminal condition first
(`asyncio.wait(..., return_when=FIRST_COMPLETED)`, line 89-92). -/
inductive TaskFirst
  | ramping
  | monitoring
deriving DecidableEq, Repr

/-- Terminal result of the monitoring task. -/
inductive MonitorResult
  | success
  | failure
deriving DecidableEq, Repr

/-- Return value of `execute_transition`: the two string statuses, and the
bare `return` (Python `None`) taken when the safety lock is engaged. -/
inductive ExecResult
  | success
  | failure
  | skip
deriving DecidableEq, Repr

/-- Join logic of Phase 5 in `execute_transition` (lines 85-112): the result
of the first-completed task is inspected; a monitoring result of
"success"/"failure" is returned as is; when the ramping task (whose Python
result is `None`) completes first, the loop over `done` matches neither
branch, the code falls through to `asyncio.gather(monitoring_task, ...)`
whose result is DISCARDED, and "success" is returned (line 112). -/
def phase5Join (first : TaskFirst) (monitorResult : MonitorResult) : ExecResult :=
  match first with
  | TaskFirst.monitoring =>
    match monitorResult with
    | MonitorResult.success => ExecResult.success
    | MonitorResult.failure => ExecResult.failure
  | TaskFirst.ramping => ExecResult.success

/-- Environment of one run: the external inputs consumed along the way
(offboard attempt outcomes, per-cycle snapshots of the climb phases, the
ramp-entry snapshot, which Phase 5 task finished first and the monitoring
task's terminal result, the snapshot read by the success path, the
square-root oracle, and the post-transition offboard attempt outcomes). -/
structure RunEnv where
  offboardOutcomes : ℕ → AttemptOutcome
  initialClimbTels : List Telemetry
  secondaryClimbTels : List Telemetry
  rampEntryTel : Telemetry
  monitorFirst : TaskFirst
  monitorResult : MonitorResult
  successTel : Telemetry
  sqrtOf : ℚ → ℚ
  postAction : PostTransitionAction
  postOffboardOutcomes : ℕ → AttemptOutcome

/-- Top-level `execute_transition` (lines 57-121).  The safety-lock gate
(lines 70-72) returns the bare `return` (skip) before any phase runs; a
Phase 2 `RuntimeError` reaches the outer exception handler, which runs the
abort path once more and returns failure; otherwise the phases run in order
and Phase 5's join logic decides the result.  The returned trace is the
concatenation of the per-phase event lists (Phase 5's concurrent
interleaving is serialized as ramp events then monitor-side events). -/
def execute_transition (cfg : Config) (env : RunEnv) : ExecResult × List Event :=
  if cfg.safety_lock.getD true then (ExecResult.skip, [])
  else
    let p1 := arm_and_takeoff cfg {}
    let p2 := start_offboard cfg env.offboardOutcomes 3
    match p2.2 with
    | StartOffboardResult.raisedError =>
        (ExecResult.failure, p1.2 ++ p2.1 ++ abort_transition_trace cfg)
    | StartOffboardResult.activated =>
      let p3 := initial_climb_phase cfg env.initialClimbTels
      let p4 := secondary_climb_phase cfg env.secondaryClimbTels
      let p5ramp := ramp_throttle_and_tilt_trace cfg env.rampEntryTel
      let p5monitor :=
        match env.monitorResult with
        | MonitorResult.failure => abort_transition_trace cfg
        | MonitorResult.success =>
            success_transition_trace cfg env.successTel env.sqrtOf env.postAction
              env.postOffboardOutcomes
      (phase5Join env.monitorFirst env.monitorResult,
       p1.2 ++ p2.1 ++ p3 ++ p4 ++ p5ramp ++ p5monitor)

/-- Concrete snapshot with a safe envelope: altitude 50 m, level roll, pitch
inside the envelope, positive climb rate, and a selectable airspeed. -/
def telSafe (airspeed : ℚ) : Telemetry :=
  { position_velocity_ned := some
      { position := { north_m := 0, east_m := 0, down_m := -50 }
        velocity := { north_m_s := 15, east_m_s := 0, down_m_s := 0 } }
    euler_angle := some { roll_deg := 0, pitch_deg := -40, yaw_deg := 90 }
    fixedwing_metrics := some
      { airspeed_m_s := airspeed, throttle_percentage := 0.75, climb_rate_m_s := 1 } }

/-- Concrete snapshot whose NED down position is 3 m, i.e. altitude −3 m. -/
def telNegAlt : Telemetry :=
  { position_velocity_ned := some
      { position := { north_m := 0, east_m := 0, down_m := 3 }
        velocity := { north_m_s := 0, east_m_s := 0, down_m_s := 0 } } }

/-- Concrete snapshot whose reported throttle (0.9) is above the default
`max_throttle` cap of 0.8 — `throttle_percentage` is read unclamped at ramp
entry (line 280). -/
def telHighThrottle : Telemetry :=
  { fixedwing_metrics := some
      { airspeed_m_s := 0, throttle_percentage := 0.9, climb_rate_m_s := 1 } }

/-- Scanner asserting that every `offboard.start` invocation in a trace is
immediately preceded by the zero body-velocity setpoint; `prev` carries the
event seen just before the current position. -/
def startsPreceded : Option Event → List Event → Bool
  | _, [] => true
  | prev, e :: rest =>
    (!e.isOffboardStart || decide (prev = some zeroBodySetpoint)) &&
    startsPreceded (some e) rest

/-- Number of `offboard.start` invocations in a trace. -/
def countOffboardStarts (t : List Event) : ℕ :=
  t.countP (fun e => e.isOffboardStart)

/-- Attempt outcomes in which the autopilot accepts every offboard start. -/
def okOutcomes : ℕ → AttemptOutcome := fun _ => AttemptOutcome.ok

/-- Attempt outcomes in which every offboard start is rejected with
`OffboardError`. -/
def allFailOutcomes : ℕ → AttemptOutcome := fun _ => AttemptOutcome.offboardErr

/-- Configuration with the safety lock released, the `-1` yaw sentinel (the
CLI default written by `main_control.py`), and every other key missing. -/
def cfgYawSentinel : Config := { safety_lock := some false, transition_yaw_angle := some (-1) }

/-- Configuration with the safety lock released and a 30 s transition
timeout. -/
def cfgRun : Config := { safety_lock := some false, transition_timeout := some 30 }

/-- Configuration with only the safety lock released. -/
def cfgUnlocked : Config := { safety_lock := some false }

/-- Configuration with the safety lock engaged. -/
def cfgLocked : Config := { safety_lock := some true }

/-- Snapshot with the attitude slot present (yaw 45°) but the
position-velocity slot absent. -/
def telNoPvn : Telemetry := { euler_angle := some { roll_deg := 0, pitch_deg := 0, yaw_deg := 45 } }

/-- Run environment in which the ramping task finishes all its steps first
and the monitoring task later terminates with failure. -/
def envRampFirstMonitorFail : RunEnv :=
  { offboardOutcomes := okOutcomes
    initialClimbTels := []
    secondaryClimbTels := []
    rampEntryTel := {}
    monitorFirst := TaskFirst.ramping
    monitorResult := MonitorResult.failure
    successTel := {}
    sqrtOf := fun q => q
    postAction := PostTransitionAction.returnToLaunch
    postOffboardOutcomes := okOutcomes }

/-- Run environment in which every Phase 2 offboard attempt is rejected. -/
def envAllFail : RunEnv :=
  { offboardOutcomes := allFailOutcomes
    initialClimbTels := []
    secondaryClimbTels := []
    rampEntryTel := {}
    monitorFirst := TaskFirst.monitoring
    monitorResult := MonitorResult.failure
    successTel := {}
    sqrtOf := fun q => q
    postAction := PostTransitionAction.returnToLaunch
    postOffboardOutcomes := okOutcomes }

/-- Helper: a monitoring cycle that falls through to the next iteration did
not trip the timeout check, so its elapsed time is within the budget. -/
theorem monitorCycle_next_elapsed_le (cfg : Config) (e : ℚ) (tel : Telemetry)
    (m0 : Option ℚ) (h : (monitorCycle cfg e tel m0).1 = MonitorDecision.next) :
    e ≤ cfg.transition_timeout.getD 120 := by
  unfold monitorCycle at h
  simp only at h
  split_ifs at h <;> simp_all

/-- Helper: the peak component returned by a monitoring cycle is exactly the
peak update applied to the parsed altitude. -/
theorem monitorCycle_snd (cfg : Config) (e : ℚ) (tel : Telemetry) (m0 : Option ℚ) :
    (monitorCycle cfg e tel m0).2 = updatePeak m0 (telAltitude tel) := rfl

/-- Helper: the peak update against a present previous peak is the binary
maximum. -/
theorem updatePeak_some (m a : ℚ) : updatePeak (some m) a = max m a := by
  show (if a > m then a else m) = max m a
  split_ifs with h
  · exact (max_eq_right (le_of_lt h)).symm
  · exact (max_eq_left (not_lt.mp h)).symm

/-- Helper: threading the peak through a run computes the running maximum. -/
theorem peakAfterCycles_some (cfg : Config) (cycles : List (ℚ × Telemetry)) :
    ∀ m : ℚ, peakAfterCycles cfg (some m) cycles =
      some (observedMax m (cycles.map fun c => telAltitude c.2)) := by
  induction cycles with
  | nil => intro m; rfl
  | cons c rest ih =>
    intro m
    simp only [peakAfterCycles, monitorCycle_snd, updatePeak_some, List.map_cons]
    rw [ih (max m (telAltitude c.2))]
    rfl

/-- Claim C3: the monitoring cycle evaluates its predicates in the fixed
source order (roll limit, upper-altitude limit, pitch limit, altitude-loss
limit, lower-altitude limit, climb-rate minimum, airspeed success, timeout),
and its decision is that of the first predicate that holds — the
specification-side first-hit scan over the ordered check list — so that when
two predicates are simultaneously true the earlier one wins. -/
theorem monitor_decision_is_first_tripped_check (cfg : Config) (elapsedTime : ℚ)
    (tel : Telemetry) (maxAltitude0 : Option ℚ) :
    (monitorCycle cfg elapsedTime tel maxAltitude0).1 =
      firstTripped (monitorChecks cfg elapsedTime tel maxAltitude0) := by
  unfold monitorCycle monitorChecks firstTripped
  simp only [List.find?]
  split_ifs <;> simp [List.find?, *]

/-- Claim C6 counterexample: a successful run in which the elapsed time at
the moment the success decision is made (setting `transition_achieved`)
exceeds `transition_timeout` — the success predicate is evaluated before the
timeout check, so a cycle at elapsed 31 s with airspeed 25 m/s succeeds
against a 30 s budget. -/
theorem success_can_outlive_timeout :
    monitorRun { transition_timeout := some 30 } none [(31, telSafe 25)] =
      some (0, MonitorDecision.succeedAirspeed) ∧ (31 : ℚ) > 30 := by
  constructor
  · norm_num [monitorRun, monitorCycle, telSafe, telAltitude, telPitch, telRoll,
      telAirspeed, telClimbRate, updatePeak, altitudeLossOf]
    intro h
    exact absurd h (by decide)
  · norm_num

/-- Claim C6 (amended): for every successful run, every monitoring cycle
strictly before the cycle that sets `transition_achieved` has elapsed time
within `transition_timeout`; the deciding cycle itself may exceed the budget
because the airspeed success predicate is checked before the timeout. -/
theorem elapsed_within_timeout_before_success (cfg : Config)
    (maxAltitude0 : Option ℚ) (cycles : List (ℚ × Telemetry)) (k : ℕ)
    (hrun : monitorRun cfg maxAltitude0 cycles =
      some (k, MonitorDecision.succeedAirspeed)) :
    ∀ j, j < k → ∀ c, cycles.get? j = some c →
      c.1 ≤ cfg.transition_timeout.getD 120 := by
  induction cycles generalizing maxAltitude0 k with
  | nil => simp [monitorRun] at hrun
  | cons c0 rest ih =>
    intro j hjk c hget
    unfold monitorRun at hrun
    by_cases hnext : (monitorCycle cfg c0.1 c0.2 maxAltitude0).1 = MonitorDecision.next
    · rw [if_pos hnext] at hrun
      cases hr : monitorRun cfg (some (monitorCycle cfg c0.1 c0.2 maxAltitude0).2) rest with
      | none => rw [hr] at hrun; exact absurd hrun (by simp)
      | some kd =>
        rw [hr] at hrun
        simp only [Option.map_some', Option.some.injEq, Prod.mk.injEq] at hrun
        obtain ⟨hk1, hk2⟩ := hrun
        cases j with
        | zero =>
          have hc : c0 = c := by simpa using hget
          subst hc
          exact monitorCycle_next_elapsed_le cfg c0.1 c0.2 maxAltitude0 hnext
        | succ j1 =>
          have hkd : monitorRun cfg (some (monitorCycle cfg c0.1 c0.2 maxAltitude0).2) rest =
              some (kd.1, MonitorDecision.succeedAirspeed) := by
            rw [hr, ← hk2]
          exact ih (some (monitorCycle cfg c0.1 c0.2 maxAltitude0).2) kd.1 hkd j1
            (by omega) c (by simpa using hget)
    · rw [if_neg hnext] at hrun
      simp only [Option.some.injEq, Prod.mk.injEq] at hrun
      omega

/-- Witness for the amended C6 theorem: a concrete two-cycle run whose second
cycle succeeds; the first cycle's elapsed time is within the 30 s budget. -/
theorem elapsed_within_timeout_before_success_witness :
    monitorRun { transition_timeout := some 30 } none [(5, telSafe 5), (10, telSafe 25)] =
      some (1, MonitorDecision.succeedAirspeed) ∧
    (∀ j, j < 1 → ∀ c : ℚ × Telemetry,
      [((5 : ℚ), telSafe 5), (10, telSafe 25)].get? j = some c →
      c.1 ≤ (({ transition_timeout := some 30 } : Config)).transition_timeout.getD 120) := by
  have hrun : monitorRun { transition_timeout := some 30 } none
      [(5, telSafe 5), (10, telSafe 25)] = some (1, MonitorDecision.succeedAirspeed) := by
    norm_num [monitorRun, monitorCycle, telSafe, telAltitude, telPitch, telRoll,
      telAirspeed, telClimbRate, updatePeak, altitudeLossOf]
    decide
  exact ⟨hrun, elapsed_within_timeout_before_success { transition_timeout := some 30 }
    none [(5, telSafe 5), (10, telSafe 25)] 1 hrun⟩

/-- Claim C10 counterexample: a monitoring cycle with an absent position slot
records a peak altitude of exactly 0.0; on the next cycle, with the current
altitude −3 m, the peak stays 0.0 and the derived altitude loss is 0.0 by
Python truthiness — not `peak − altitude = 3`. -/
theorem altitude_loss_at_zero_peak_counterexample :
    (monitorCycle ({} : Config) 1 ({} : Telemetry) none).2 = 0 ∧
    updatePeak (some 0) (telAltitude telNegAlt) = 0 ∧
    altitudeLossOf (updatePeak (some 0) (telAltitude telNegAlt)) (telAltitude telNegAlt) = 0 ∧
    updatePeak (some 0) (telAltitude telNegAlt) - telAltitude telNegAlt = 3 ∧
    (0 : ℚ) ≠ 3 := by
  norm_num [monitorCycle, telAltitude, telNegAlt, updatePeak, altitudeLossOf]

/-- Claim C10 (amended): the peak recorded by a monitoring cycle is the peak
update applied to the parsed altitude; the update is bounded below by both
the previous peak and the current altitude (so the peak is monotonically
non-decreasing and at least the current altitude); over a whole run starting
with no recorded peak, the threaded peak is exactly the maximum of all
altitudes observed; and the derived altitude loss equals peak minus current
altitude whenever the peak is nonzero, while a peak of exactly 0.0 yields a
loss of 0.0 (Python truthiness of the float). -/
theorem peak_is_running_max_and_loss_guarded (cfg : Config) :
    (∀ e tel m0, (monitorCycle cfg e tel m0).2 = updatePeak m0 (telAltitude tel)) ∧
    (∀ m a : ℚ, a ≤ updatePeak (some m) a ∧ m ≤ updatePeak (some m) a) ∧
    (∀ (first : ℚ × Telemetry) (rest : List (ℚ × Telemetry)),
      peakAfterCycles cfg none (first :: rest) =
        some (observedMax (telAltitude first.2) (rest.map fun c => telAltitude c.2))) ∧
    (∀ peak alt : ℚ, peak ≠ 0 → altitudeLossOf peak alt = peak - alt) ∧
    (∀ alt : ℚ, altitudeLossOf 0 alt = 0) := by
  refine ⟨fun e tel m0 => rfl, fun m a => ?_, fun first rest => ?_, fun peak alt h => ?_,
    fun alt => ?_⟩
  · rw [updatePeak_some]
    exact ⟨le_max_right m a, le_max_left m a⟩
  · have h1 : peakAfterCycles cfg none (first :: rest) =
        peakAfterCycles cfg (some (telAltitude first.2)) rest := by
      simp only [peakAfterCycles, monitorCycle_snd]
      rfl
    rw [h1, peakAfterCycles_some]
  · simp only [altitudeLossOf, if_neg h]
  · simp [altitudeLossOf]

/-- Witness for the amended C10 theorem: the loss equation instantiated at a
nonzero peak and the run-level maximum instantiated at a one-cycle run. -/
theorem peak_is_running_max_and_loss_guarded_witness :
    (3 : ℚ) ≠ 0 ∧ altitudeLossOf 3 1 = 3 - 1 ∧
    peakAfterCycles ({} : Config) none [(1, telSafe 5)] =
      some (observedMax (telAltitude (telSafe 5)) []) :=
  ⟨by norm_num,
   (peak_is_running_max_and_loss_guarded {}).2.2.2.1 3 1 (by norm_num),
   (peak_is_running_max_and_loss_guarded {}).2.2.1 (1, telSafe 5) []⟩

/-- Helper: the commanded throttle never exceeds `max_throttle` when the
ramp-entry throttle is within the cap (the update clamps with `min`). -/
theorem rampThrottle_le_max (p : RampParams) (t0 : ℚ) (h0 : t0 ≤ p.maxThrottle) :
    ∀ k, (rampStateAfter p t0 k).1 ≤ p.maxThrottle := by
  intro k
  induction k with
  | zero => simpa [rampStateAfter]
  | succ k ih =>
    simp only [rampStateAfter, rampUpdate]
    by_cases h : k < p.throttleSteps
    · simp [h, min_le_right]
    · simpa [h] using ih

/-- Helper: the commanded throttle is monotonically non-decreasing when the
per-cycle increment is nonnegative and the entry throttle is within the
cap. -/
theorem rampThrottle_mono (p : RampParams) (t0 : ℚ) (hstep : 0 ≤ p.throttleStep)
    (h0 : t0 ≤ p.maxThrottle) :
    ∀ k, (rampStateAfter p t0 k).1 ≤ (rampStateAfter p t0 (k + 1)).1 := by
  intro k
  have hle := rampThrottle_le_max p t0 h0 k
  simp only [rampStateAfter, rampUpdate]
  by_cases h : k < p.throttleSteps
  · simp only [h, if_pos]
    exact le_min (by linarith) hle
  · simp [h]

/-- Helper: the commanded tilt never goes below the (negative) nominal cap
(the update clamps with `max`). -/
theorem rampTilt_ge_cap (p : RampParams) (t0 : ℚ) (hmt : p.maxTilt ≤ 0) :
    ∀ k, p.maxTilt ≤ (rampStateAfter p t0 k).2 := by
  intro k
  induction k with
  | zero => simpa [rampStateAfter]
  | succ k ih =>
    simp only [rampStateAfter, rampUpdate]
    by_cases h : k < p.tiltSteps
    · simp [h, le_max_right]
    · simpa [h] using ih

/-- Helper: the commanded tilt is monotonically non-increasing when the
per-cycle increment is nonpositive. -/
theorem rampTilt_anti (p : RampParams) (t0 : ℚ) (hstep : p.tiltStep ≤ 0)
    (hmt : p.maxTilt ≤ 0) :
    ∀ k, (rampStateAfter p t0 (k + 1)).2 ≤ (rampStateAfter p t0 k).2 := by
  intro k
  have hge := rampTilt_ge_cap p t0 hmt k
  simp only [rampStateAfter, rampUpdate]
  by_cases h : k < p.tiltSteps
  · simp only [h, if_pos]
    exact max_le (by linarith) hge
  · simp [h]

/-- Helper: during over-tilt the commanded tilt never goes below the
(negative) over-tilt cap. -/
theorem overTilt_ge_cap (p : RampParams) (tiltStart : ℚ)
    (h : p.maxAllowedTilt ≤ tiltStart) :
    ∀ k, p.maxAllowedTilt ≤ overTiltAfter p tiltStart k := by
  intro k
  induction k with
  | zero => simpa [overTiltAfter]
  | succ k ih => simp [overTiltAfter, le_max_right]

/-- Helper: during over-tilt the commanded tilt is monotonically
non-increasing when the per-cycle increment is nonpositive. -/
theorem overTilt_anti (p : RampParams) (tiltStart : ℚ) (hstep : p.tiltStep ≤ 0)
    (h : p.maxAllowedTilt ≤ tiltStart) :
    ∀ k, overTiltAfter p tiltStart (k + 1) ≤ overTiltAfter p tiltStart k := by
  intro k
  have hge := overTilt_ge_cap p tiltStart h k
  simp only [overTiltAfter]
  exact max_le (by linarith) hge

/-- Claim C7 counterexample: the ramp-entry throttle is read unclamped from
telemetry, and an entry of 0.9 against the default `max_throttle = 0.8`
makes the per-cycle increment negative (line 282), so the published throttle
strictly decreases between the first two setpoints (0.8 then 0.798) —
refuting the claim's unconditional monotone non-decrease. -/
theorem ramp_throttle_decreases_above_cap :
    telThrottle telHighThrottle = 0.9 ∧
    (mkRampParams {} 0.9).throttleStep < 0 ∧
    (rampStateAfter (mkRampParams {} 0.9) 0.9 2).1 <
      (rampStateAfter (mkRampParams {} 0.9) 0.9 1).1 := by
  have hps : mkRampParams ({} : Config) 0.9 =
      { throttleSteps := 50, tiltSteps := 150, maxThrottle := 4/5, maxTilt := -80,
        maxAllowedTilt := -110, throttleStep := -1/500, tiltStep := -8/15 } := by
    have hd1 : ((5 : ℚ) / (0.1 : ℚ)) = 50 := by norm_num
    have hd2 : ((15 : ℚ) / (0.1 : ℚ)) = 150 := by norm_num
    simp only [mkRampParams, Option.getD_none]
    rw [hd1, hd2]
    have hf1 : (Rat.floor (50 : ℚ)).toNat = 50 := by decide
    have hf2 : (Rat.floor (150 : ℚ)).toNat = 150 := by decide
    rw [hf1, hf2]
    norm_num
  refine ⟨rfl, ?_, ?_⟩
  · rw [hps]
    norm_num
  · rw [hps]
    norm_num [rampStateAfter, rampUpdate, min_def, max_def]

/-- Claim C7 (amended): over the published ramp setpoints (the state after
`k+1` updates is published at step `k`), provided the ramp-entry throttle
does not exceed `max_throttle` — with an entry above the cap the published
throttle instead decreases toward the cap — and under the nominal ramp
regime (at least one step in each ramp, the per-cycle increments as computed
by the source from the caps and step counts, a nonnegative tilt cap
magnitude), the commanded throttle is monotonically non-decreasing and never
exceeds `max_throttle`, and the commanded tilt is monotonically
non-increasing (arithmetically), never below `−max_tilt_pitch` in the
nominal phase nor below `−max_allowed_tilt` in the over-tilt phase; the
over-tilt statement holds from any entry tilt at or above the over-tilt
cap. -/
theorem ramp_monotone_and_bounded (p : RampParams) (throttle0 : ℚ)
    (h1 : 1 ≤ p.throttleSteps)
    (h2 : p.throttleStep = (p.maxThrottle - throttle0) / p.throttleSteps)
    (h3 : throttle0 ≤ p.maxThrottle)
    (h4 : 1 ≤ p.tiltSteps)
    (h5 : p.tiltStep = p.maxTilt / p.tiltSteps)
    (h6 : p.maxTilt ≤ 0) :
    (∀ k, (rampStateAfter p throttle0 (k + 1)).1 ≤ (rampStateAfter p throttle0 (k + 2)).1) ∧
    (∀ k, (rampStateAfter p throttle0 (k + 1)).1 ≤ p.maxThrottle) ∧
    (∀ k, (rampStateAfter p throttle0 (k + 2)).2 ≤ (rampStateAfter p throttle0 (k + 1)).2) ∧
    (∀ k, p.maxTilt ≤ (rampStateAfter p throttle0 (k + 1)).2) ∧
    (∀ tiltStart, p.maxAllowedTilt ≤ tiltStart →
      (∀ k, overTiltAfter p tiltStart (k + 1) ≤ overTiltAfter p tiltStart k) ∧
      (∀ k, p.maxAllowedTilt ≤ overTiltAfter p tiltStart k)) := by
  have hstep : 0 ≤ p.throttleStep := by
    rw [h2]
    exact div_nonneg (by linarith) (Nat.cast_nonneg p.throttleSteps)
  have htilt : p.tiltStep ≤ 0 := by
    rw [h5]
    exact div_nonpos_iff.mpr (Or.inr ⟨h6, Nat.cast_nonneg p.tiltSteps⟩)
  refine ⟨fun k => rampThrottle_mono p throttle0 hstep h3 (k + 1),
    fun k => rampThrottle_le_max p throttle0 h3 (k + 1),
    fun k => rampTilt_anti p throttle0 htilt h6 (k + 1),
    fun k => rampTilt_ge_cap p throttle0 h6 (k + 1),
    fun tiltStart hts =>
      ⟨overTilt_anti p tiltStart htilt hts, overTilt_ge_cap p tiltStart hts⟩⟩

/-- Witness for the C7 theorem: the ramp parameters computed by the source
from the all-default configuration and the default ramp-entry throttle 0.7
satisfy every hypothesis, and the conclusions hold there. -/
theorem ramp_monotone_and_bounded_witness :
    (1 ≤ (mkRampParams {} 0.7).throttleSteps ∧
     (mkRampParams {} 0.7).throttleStep =
       ((mkRampParams {} 0.7).maxThrottle - 0.7) / (mkRampParams {} 0.7).throttleSteps ∧
     (0.7 : ℚ) ≤ (mkRampParams {} 0.7).maxThrottle ∧
     1 ≤ (mkRampParams {} 0.7).tiltSteps ∧
     (mkRampParams {} 0.7).tiltStep =
       (mkRampParams {} 0.7).maxTilt / (mkRampParams {} 0.7).tiltSteps ∧
     (mkRampParams {} 0.7).maxTilt ≤ 0) ∧
    ((∀ k, (rampStateAfter (mkRampParams {} 0.7) 0.7 (k + 1)).1 ≤
        (rampStateAfter (mkRampParams {} 0.7) 0.7 (k + 2)).1) ∧
     (∀ k, (rampStateAfter (mkRampParams {} 0.7) 0.7 (k + 1)).1 ≤
        (mkRampParams {} 0.7).maxThrottle) ∧
     (∀ k, (rampStateAfter (mkRampParams {} 0.7) 0.7 (k + 2)).2 ≤
        (rampStateAfter (mkRampParams {} 0.7) 0.7 (k + 1)).2) ∧
     (∀ k, (mkRampParams {} 0.7).maxTilt ≤
        (rampStateAfter (mkRampParams {} 0.7) 0.7 (k + 1)).2) ∧
     (∀ tiltStart, (mkRampParams {} 0.7).maxAllowedTilt ≤ tiltStart →
       (∀ k, overTiltAfter (mkRampParams {} 0.7) tiltStart (k + 1) ≤
          overTiltAfter (mkRampParams {} 0.7) tiltStart k) ∧
       (∀ k, (mkRampParams {} 0.7).maxAllowedTilt ≤
          overTiltAfter (mkRampParams {} 0.7) tiltStart k))) := by
  have hps : mkRampParams ({} : Config) 0.7 =
      { throttleSteps := 50, tiltSteps := 150, maxThrottle := 4/5, maxTilt := -80,
        maxAllowedTilt := -110, throttleStep := 1/500, tiltStep := -8/15 } := by
    have hd1 : ((5 : ℚ) / (0.1 : ℚ)) = 50 := by norm_num
    have hd2 : ((15 : ℚ) / (0.1 : ℚ)) = 150 := by norm_num
    simp only [mkRampParams, Option.getD_none]
    rw [hd1, hd2]
    have hf1 : (Rat.floor (50 : ℚ)).toNat = 50 := by decide
    have hf2 : (Rat.floor (150 : ℚ)).toNat = 150 := by decide
    rw [hf1, hf2]
    norm_num
  have hp : (1 ≤ (mkRampParams {} 0.7).throttleSteps ∧
     (mkRampParams {} 0.7).throttleStep =
       ((mkRampParams {} 0.7).maxThrottle - 0.7) / (mkRampParams {} 0.7).throttleSteps ∧
     (0.7 : ℚ) ≤ (mkRampParams {} 0.7).maxThrottle ∧
     1 ≤ (mkRampParams {} 0.7).tiltSteps ∧
     (mkRampParams {} 0.7).tiltStep =
       (mkRampParams {} 0.7).maxTilt / (mkRampParams {} 0.7).tiltSteps ∧
     (mkRampParams {} 0.7).maxTilt ≤ 0) := by
    rw [hps]
    norm_num
  exact ⟨hp, ramp_monotone_and_bounded (mkRampParams {} 0.7) 0.7 hp.1 hp.2.1 hp.2.2.1
    hp.2.2.2.1 hp.2.2.2.2.1 hp.2.2.2.2.2⟩

/-- Helper: the abort path issues no `offboard.start`, so the scanner accepts
it from any preceding event. -/
theorem startsPreceded_abort (cfg : Config) (prev : Option Event) :
    startsPreceded prev (abort_transition_trace cfg) = true := by
  unfold abort_transition_trace
  by_cases h : cfg.failsafe_multicopter_transition.getD true <;>
    simp [h, startsPreceded, Event.isOffboardStart]

/-- Helper: every `offboard.start` in any `start_offboard` trace is
immediately preceded by the zero body-velocity setpoint. -/
theorem startsPreceded_start_offboard_from (cfg : Config)
    (outcomes : ℕ → AttemptOutcome) :
    ∀ n attempt prev,
      startsPreceded prev (start_offboard_from cfg outcomes attempt n).1 = true := by
  intro n
  induction n with
  | zero => intro attempt prev; exact startsPreceded_abort cfg prev
  | succ n ih =>
    intro attempt prev
    simp only [start_offboard_from]
    cases houtcome : outcomes attempt with
    | ok => simp [startsPreceded, Event.isOffboardStart, zeroBodySetpoint]
    | offboardErr =>
      have htail := ih (attempt + 1) (some (Event.sleepFor 2))
      simp [startsPreceded, Event.isOffboardStart, zeroBodySetpoint, htail]
    | otherErr =>
      have htail := startsPreceded_abort cfg (some (Event.issue Cmd.offboardStart true))
      simp [startsPreceded, Event.isOffboardStart, zeroBodySetpoint, htail]

/-- Helper: evaluation facts for the scanner predicates at the three events
of one offboard attempt. -/
theorem isOffboardStart_zeroSetpoint : zeroBodySetpoint.isOffboardStart = false := rfl

/-- Helper: a sleep event is not an `offboard.start`. -/
theorem isOffboardStart_sleep (q : ℚ) : (Event.sleepFor q).isOffboardStart = false := rfl

/-- Helper: a locked `offboard.start` issuance is an `offboard.start`. -/
theorem isOffboardStart_start : (Event.issue Cmd.offboardStart true).isOffboardStart = true := rfl

/-- Helper: the zero setpoint is not an attitude setpoint. -/
theorem isAttitude_zeroSetpoint : zeroBodySetpoint.isAttitude = false := rfl

/-- Helper: an `offboard.start` issuance is not an attitude setpoint. -/
theorem isAttitude_start : (Event.issue Cmd.offboardStart true).isAttitude = false := rfl

/-- Helper: a sleep event is not an attitude setpoint. -/
theorem isAttitude_sleep (q : ℚ) : (Event.sleepFor q).isAttitude = false := rfl

/-- Helper: the abort path contains no `offboard.start` command. -/
theorem countStarts_abort (cfg : Config) :
    countOffboardStarts (abort_transition_trace cfg) = 0 := by
  unfold abort_transition_trace countOffboardStarts
  by_cases h : cfg.failsafe_multicopter_transition.getD true <;>
    simp [h, Event.isOffboardStart]

/-- Helper: a `start_offboard` run with `n` attempts remaining invokes
`offboard.start` at most `n` times. -/
theorem countStarts_start_offboard_from (cfg : Config)
    (outcomes : ℕ → AttemptOutcome) :
    ∀ n attempt, countOffboardStarts (start_offboard_from cfg outcomes attempt n).1 ≤ n := by
  intro n
  induction n with
  | zero =>
    intro attempt
    simp only [start_offboard_from]
    simp [countStarts_abort cfg]
  | succ n ih =>
    intro attempt
    simp only [start_offboard_from]
    cases houtcome : outcomes attempt with
    | ok =>
      simp only [countOffboardStarts, List.countP_cons, List.countP_nil,
        isOffboardStart_zeroSetpoint, isOffboardStart_start]
      simp
    | offboardErr =>
      have htail := ih (attempt + 1)
      simp only [countOffboardStarts] at htail
      simp only [countOffboardStarts, List.cons_append, List.nil_append, List.countP_cons,
        isOffboardStart_zeroSetpoint, isOffboardStart_start, isOffboardStart_sleep]
      simp
      omega
    | otherErr =>
      have habort := countStarts_abort cfg
      simp only [countOffboardStarts] at habort
      simp only [countOffboardStarts, List.cons_append, List.nil_append, List.countP_append,
        List.countP_cons, List.countP_nil, habort,
        isOffboardStart_zeroSetpoint, isOffboardStart_start]
      simp

/-- Helper: the abort path issues no attitude setpoint. -/
theorem no_attitude_abort (cfg : Config) :
    ((abort_transition_trace cfg).all fun e => !e.isAttitude) = true := by
  unfold abort_transition_trace
  by_cases h : cfg.failsafe_multicopter_transition.getD true <;>
    simp [h, Event.isAttitude]

/-- Helper: no attitude setpoint is ever issued by `start_offboard`. -/
theorem no_attitude_start_offboard_from (cfg : Config)
    (outcomes : ℕ → AttemptOutcome) :
    ∀ n attempt,
      ((start_offboard_from cfg outcomes attempt n).1.all fun e => !e.isAttitude) = true := by
  intro n
  induction n with
  | zero =>
    intro attempt
    simp only [start_offboard_from]
    exact no_attitude_abort cfg
  | succ n ih =>
    intro attempt
    simp only [start_offboard_from]
    cases houtcome : outcomes attempt with
    | ok =>
      simp only [List.all_cons, List.all_nil,
        isAttitude_zeroSetpoint, isAttitude_start]
      simp
    | offboardErr =>
      have htail := ih (attempt + 1)
      simp only [List.cons_append, List.nil_append, List.all_cons, htail,
        isAttitude_zeroSetpoint, isAttitude_start, isAttitude_sleep]
      simp
    | otherErr =>
      have habort := no_attitude_abort cfg
      simp only [List.cons_append, List.nil_append, List.all_cons, List.all_append, habort,
        isAttitude_zeroSetpoint, isAttitude_start]
      simp

/-- Claim C9: in every `start_offboard` run, each `offboard.start` invocation
is immediately preceded by the published zero body-velocity setpoint, at most
as many attempts as the retry budget are made, and no attitude setpoint is
ever issued; concretely, when all three attempts are rejected the trace is
exactly three (setpoint, start, 2 s sleep) attempts followed by the abort
path, the distinct `RuntimeError` result is signalled, and the whole
transition run then returns failure before Phase 3 with no attitude (and no
climb) command ever issued. -/
theorem offboard_entry_retry_protocol (cfg : Config) :
    (∀ outcomes n attempt prev,
      startsPreceded prev (start_offboard_from cfg outcomes attempt n).1 = true) ∧
    (∀ outcomes n attempt,
      countOffboardStarts (start_offboard_from cfg outcomes attempt n).1 ≤ n) ∧
    (∀ outcomes n attempt,
      ((start_offboard_from cfg outcomes attempt n).1.all fun e => !e.isAttitude) = true) ∧
    start_offboard ({} : Config) allFailOutcomes 3 =
      ([zeroBodySetpoint, Event.issue Cmd.offboardStart true, Event.sleepFor 2,
        zeroBodySetpoint, Event.issue Cmd.offboardStart true, Event.sleepFor 2,
        zeroBodySetpoint, Event.issue Cmd.offboardStart true, Event.sleepFor 2,
        Event.issue Cmd.transitionToMulticopter true, Event.issue Cmd.offboardStop true,
        Event.issue Cmd.returnToLaunch true], StartOffboardResult.raisedError) ∧
    (execute_transition cfgUnlocked envAllFail).1 = ExecResult.failure ∧
    ((execute_transition cfgUnlocked envAllFail).2.all fun e => !e.isAttitude) = true := by
  refine ⟨fun outcomes n attempt prev => startsPreceded_start_offboard_from cfg outcomes n attempt prev,
    fun outcomes n attempt => countStarts_start_offboard_from cfg outcomes n attempt,
    fun outcomes n attempt => no_attitude_start_offboard_from cfg outcomes n attempt,
    ?_, ?_, ?_⟩
  · simp [start_offboard, start_offboard_from, allFailOutcomes, abort_transition_trace]
  · simp [execute_transition, cfgUnlocked, envAllFail, arm_and_takeoff, start_offboard,
      start_offboard_from, allFailOutcomes, abort_transition_trace]
  · simp [execute_transition, cfgUnlocked, envAllFail, arm_and_takeoff, start_offboard,
      start_offboard_from, allFailOutcomes, abort_transition_trace, Event.isAttitude,
      zeroBodySetpoint]

/-- Claim C1 (code evaluation): with `transition_yaw_angle` configured as the
−1 sentinel (the CLI default) and a launch attitude of yaw 90°, Phase 1
leaves `launch_yaw_angle` at its initial 0.0 — no capture from the
Euler-angle slot happens — while the Phase 4 NED-velocity setpoint and the
Phase 5 attitude setpoints carry yaw −1: the sentinel value itself, equal
neither to the stored `launch_yaw_angle` (0.0) nor to the launch yaw
(90°). -/
theorem yaw_override_not_implemented :
    (arm_and_takeoff cfgYawSentinel {}).1 = ({} : SessionState) ∧
    ({} : SessionState).launch_yaw_angle = 0 ∧
    secondary_climb_phase cfgYawSentinel [({} : Telemetry)] =
      [Event.issue (Cmd.setVelocityNed 0 0 (-1) (-1)) true, Event.sleepFor 0.1] ∧
    Cmd.yawOf (rampAttitudeAt cfgYawSentinel (mkRampParams cfgYawSentinel 0.7) 0.7 0) =
      some (-1) ∧
    (-1 : ℚ) ≠ 0 ∧ (-1 : ℚ) ≠ 90 := by
  refine ⟨rfl, rfl, ?_, ?_, by norm_num, by norm_num⟩
  · norm_num [secondary_climb_phase, cfgYawSentinel, telAltitude]
  · simp [rampAttitudeAt, Cmd.yawOf, cfgYawSentinel]

/-- Claim C2 (code evaluation): a monitoring run can terminate with a
failure (here the transition timeout against a 30 s budget), yet when the
ramping task completed all its steps first, the Phase 5 join logic discards
the monitoring result and `execute_transition` returns success. -/
theorem monitor_failure_after_ramp_completion_returns_success :
    monitorRun cfgRun none [(31, telSafe 5)] = some (0, MonitorDecision.failTimeout) ∧
    envRampFirstMonitorFail.monitorResult = MonitorResult.failure ∧
    phase5Join TaskFirst.ramping MonitorResult.failure = ExecResult.success ∧
    (execute_transition cfgRun envRampFirstMonitorFail).1 = ExecResult.success := by
  refine ⟨?_, rfl, rfl, rfl⟩
  norm_num [monitorRun, monitorCycle, cfgRun, telSafe, telAltitude, telPitch, telRoll,
    telAirspeed, telClimbRate, updatePeak, altitudeLossOf]
  decide

/-- Claim C4 (code evaluation): in the post-transition action
`_continue_current_heading`, when the position-velocity slot is absent, the
forward body-velocity setpoint is issued while `command_lock` is NOT held
(lines 686-688) — the full trace after a successful offboard re-entry is the
two locked offboard-entry commands followed by the unlocked setpoint, after
which the unbound `vel_n` raises `NameError`. -/
theorem command_issued_outside_lock :
    continue_current_heading ({} : Config) okOutcomes telNoPvn =
      ([zeroBodySetpoint, Event.issue Cmd.offboardStart true,
        Event.issue (Cmd.setVelocityBody 20 0 0 0) false], some PyError.nameError) ∧
    ((continue_current_heading ({} : Config) okOutcomes telNoPvn).1.any
      fun e => e.isUnlockedIssue) = true := by
  constructor
  · rfl
  · rfl

/-- Claim C5 counterexample: with the safety lock engaged,
`execute_transition` returns the bare-return skip value (Python `None`) and
an empty command trace — the result is not the string success. -/
theorem safety_lock_result_is_skip_not_success :
    execute_transition cfgLocked envRampFirstMonitorFail = (ExecResult.skip, []) ∧
    ExecResult.skip ≠ ExecResult.success := by
  exact ⟨rfl, by decide⟩

/-- Claim C5 (amended): whenever the effective `safety_lock` is true (set
true, or missing and defaulted to true), `execute_transition` returns
immediately with the skip result — the bare Python `return`, which is
neither "success" nor "failure" — the vehicle is never armed, and zero
autopilot commands are issued. -/
theorem safety_lock_skips_without_commands (cfg : Config) (env : RunEnv)
    (h : cfg.safety_lock.getD true = true) :
    execute_transition cfg env = (ExecResult.skip, []) := by
  simp [execute_transition, h]

/-- Witness for the amended C5 theorem at the concrete locked
configuration. -/
theorem safety_lock_skips_without_commands_witness :
    cfgLocked.safety_lock.getD true = true ∧
    execute_transition cfgLocked envAllFail = (ExecResult.skip, []) :=
  ⟨rfl, safety_lock_skips_without_commands cfgLocked envAllFail rfl⟩

/-- Claim C8 (code evaluation): `_continue_current_heading` raises
`AttributeError` when the Euler-angle slot is absent (line 679 reads
`euler_angle.yaw_deg` unguarded) and `NameError` when the position-velocity
slot is absent, instead of substituting defaults; the other consumers do
substitute the documented defaults on a fully absent snapshot (0.0 scalars,
0.7 ramp-entry throttle) and complete without error. -/
theorem missing_slot_raises_in_continue_heading :
    (continue_current_heading ({} : Config) okOutcomes ({} : Telemetry)).2 =
      some PyError.attributeError ∧
    (continue_current_heading ({} : Config) okOutcomes telNoPvn).2 =
      some PyError.nameError ∧
    telAltitude ({} : Telemetry) = 0 ∧ telPitch ({} : Telemetry) = 0 ∧
    telRoll ({} : Telemetry) = 0 ∧ telAirspeed ({} : Telemetry) = 0 ∧
    telClimbRate ({} : Telemetry) = 0 ∧ telThrottle ({} : Telemetry) = 0.7 ∧
    (monitorCycle ({} : Config) 0 ({} : Telemetry) none).1 =
      MonitorDecision.failAltitudeLow ∧
    initial_climb_phase ({} : Config) [({} : Telemetry)] =
      [Event.issue (Cmd.setVelocityBody 0 0 (-2) 0) true, Event.sleepFor 0.1] := by
  refine ⟨rfl, rfl, rfl, rfl, rfl, rfl, rfl, rfl, ?_, ?_⟩
  · norm_num [monitorCycle, telAltitude, telPitch, telRoll, telAirspeed, telClimbRate,
      updatePeak, altitudeLossOf]
  · norm_num [initial_climb_phase, telAltitude]

end MavsdkVtol
